import Mathlib

/-!
Verification of the financial-statement normalization and ratio-derivation
pipeline of the fs-app repository (src/financial_ratios.py and
src/financial_data.py), as a shallow embedding in Lean 4.

Modelling conventions:
* Python strings become Lean String; the Python substring test
  (needle in haystack) becomes strHasSub below.
* Python dicts become association lists (List (String × _)); dict
  assignment d[k] = v, which overwrites an existing binding in place,
  becomes dinsert; dict membership/indexing becomes List.lookup.
* Python numbers (ints and the floats produced by true division) become
  exact rationals (ℚ).
* The raw line items consumed by FinancialRatioCalculator._extract_key_accounts
  carry account_name, sj_div and the two amounts; the period/date/currency
  fields are never read by the code under verification and are elided.
* A separate dynamic model (PyVal, further below) keeps the Python-level
  typing of field values, to settle the never-raises claim.
-/

/-- Whether the list p occurs as a leading segment of s (character lists). -/
def leadsWith : List Char → List Char → Bool
  | _, [] => true
  | [], _ :: _ => false
  | c :: cs, p :: ps => c = p && leadsWith cs ps

/-- Whether p occurs as a contiguous sublist of s; embeds the Python
test p in s on strings (which is True for an empty p). -/
def hasSub : List Char → List Char → Bool
  | [], p => p.isEmpty
  | s@(_ :: cs), p => leadsWith s p || hasSub cs p

/-- The Python membership test needle in haystack on strings. -/
def strHasSub (haystack needle : String) : Bool :=
  hasSub haystack.data needle.data

/-- One parsed line item as consumed by the ratio pipeline: fields
account_name, sj_div and the current/previous amounts of the Python dict. -/
structure RawItem where
  account_name : String
  sj_div : String
  current : ℚ
  previous : ℚ
deriving DecidableEq, Repr

/-- Python dict assignment d[k] = v on an association list: replaces the
binding in place if the key is present, else appends it at the end. -/
def dinsert (k : String) (v : α) : List (String × α) → List (String × α)
  | [] => [(k, v)]
  | (k', v') :: t => if k' = k then (k, v) :: t else (k', v') :: dinsert k v t

/-- The pair of amounts stored for a canonical account key:
the value dict with fields current and previous. -/
structure AmountPair where
  current : ℚ
  previous : ℚ
deriving DecidableEq, Repr

/-- The CanonicalAccounts dict built by _extract_key_accounts. -/
abbrev Accounts := List (String × AmountPair)

/-- The body of the loop of FinancialRatioCalculator._extract_key_accounts
(src/financial_ratios.py lines 44-70), acting on one item: the if/elif
chains of the balance-sheet (BS) and income-statement (IS) branches,
each assignment being a dict overwrite. -/
def extract_step (accounts : Accounts) (item : RawItem) : Accounts :=
  if item.sj_div = "BS" then
    if strHasSub item.account_name "자산총계" then
      dinsert "total_assets" ⟨item.current, item.previous⟩ accounts
    else if strHasSub item.account_name "유동자산" then
      dinsert "current_assets" ⟨item.current, item.previous⟩ accounts
    else if strHasSub item.account_name "부채총계" then
      dinsert "total_liabilities" ⟨item.current, item.previous⟩ accounts
    else if strHasSub item.account_name "유동부채" then
      dinsert "current_liabilities" ⟨item.current, item.previous⟩ accounts
    else if strHasSub item.account_name "자본총계" then
      dinsert "total_equity" ⟨item.current, item.previous⟩ accounts
    else accounts
  else if item.sj_div = "IS" then
    if strHasSub item.account_name "매출액" && !strHasSub item.account_name "매출원가" then
      dinsert "revenue" ⟨item.current, item.previous⟩ accounts
    else if strHasSub item.account_name "영업이익" then
      dinsert "operating_profit" ⟨item.current, item.previous⟩ accounts
    else if strHasSub item.account_name "당기순이익" && !strHasSub item.account_name "손실" then
      dinsert "net_income" ⟨item.current, item.previous⟩ accounts
    else accounts
  else accounts

/-- FinancialRatioCalculator._extract_key_accounts: folds extract_step over
the raw item list starting from the empty dict. -/
def extract_key_accounts (raw_data : List RawItem) : Accounts :=
  raw_data.foldl extract_step []

/-- The canonical key (if any) that one item populates, read off the
if/elif chains of _extract_key_accounts: because the branches are
elif-chained, an item populates at most one key, the first in branch
order whose substring rule it satisfies. -/
def routeKey (item : RawItem) : Option String :=
  if item.sj_div = "BS" then
    if strHasSub item.account_name "자산총계" then some "total_assets"
    else if strHasSub item.account_name "유동자산" then some "current_assets"
    else if strHasSub item.account_name "부채총계" then some "total_liabilities"
    else if strHasSub item.account_name "유동부채" then some "current_liabilities"
    else if strHasSub item.account_name "자본총계" then some "total_equity"
    else none
  else if item.sj_div = "IS" then
    if strHasSub item.account_name "매출액" && !strHasSub item.account_name "매출원가" then
      some "revenue"
    else if strHasSub item.account_name "영업이익" then some "operating_profit"
    else if strHasSub item.account_name "당기순이익" && !strHasSub item.account_name "손실" then
      some "net_income"
    else none
  else none

/-- The last item of a list that routes to a given canonical key, if any. -/
def lastMatch (key : String) : List RawItem → Option RawItem
  | [] => none
  | it :: t =>
      match lastMatch key t with
      | some r => some r
      | none => if routeKey it = some key then some it else none

/-- One ratio entry as stored in a family dict: value, display name, unit. -/
structure RatioInfo where
  value : ℚ
  name : String
  unit : String
deriving DecidableEq, Repr

/-- A ratio family dict (profitability, stability, growth or activity). -/
abbrev RatioFamily := List (String × RatioInfo)

/-- The RatioReport dict returned by calculate_ratios: family name to family. -/
abbrev RatioReport := List (String × RatioFamily)

/-- FinancialRatioCalculator._calculate_profitability_ratios
(src/financial_ratios.py lines 74-126).  Each guarded block appends its
entry when both account keys are present and the denominator is positive;
in this typed model amounts are rationals, so the try/except of the source
(which can only catch dynamic type errors, settled separately in the
dynamic model below) never fires. -/
def profitability_ratios (accounts : Accounts) : RatioFamily :=
  (match List.lookup "net_income" accounts, List.lookup "total_equity" accounts with
   | some ni, some eq =>
       if 0 < eq.current then
         [("roe", ⟨ni.current / eq.current * 100, "ROE (자기자본이익률)", "%"⟩)]
       else []
   | _, _ => []) ++
  (match List.lookup "net_income" accounts, List.lookup "total_assets" accounts with
   | some ni, some ta =>
       if 0 < ta.current then
         [("roa", ⟨ni.current / ta.current * 100, "ROA (총자산이익률)", "%"⟩)]
       else []
   | _, _ => []) ++
  (match List.lookup "operating_profit" accounts, List.lookup "revenue" accounts with
   | some op, some rev =>
       if 0 < rev.current then
         [("operating_margin", ⟨op.current / rev.current * 100, "영업이익률", "%"⟩)]
       else []
   | _, _ => []) ++
  (match List.lookup "net_income" accounts, List.lookup "revenue" accounts with
   | some ni, some rev =>
       if 0 < rev.current then
         [("net_margin", ⟨ni.current / rev.current * 100, "순이익률", "%"⟩)]
       else []
   | _, _ => [])

/-- FinancialRatioCalculator._calculate_stability_ratios
(src/financial_ratios.py lines 128-169). -/
def stability_ratios (accounts : Accounts) : RatioFamily :=
  (match List.lookup "total_liabilities" accounts, List.lookup "total_equity" accounts with
   | some tl, some eq =>
       if 0 < eq.current then
         [("debt_ratio", ⟨tl.current / eq.current * 100, "부채비율", "%"⟩)]
       else []
   | _, _ => []) ++
  (match List.lookup "total_equity" accounts, List.lookup "total_assets" accounts with
   | some eq, some ta =>
       if 0 < ta.current then
         [("equity_ratio", ⟨eq.current / ta.current * 100, "자기자본비율", "%"⟩)]
       else []
   | _, _ => []) ++
  (match List.lookup "current_assets" accounts, List.lookup "current_liabilities" accounts with
   | some ca, some cl =>
       if 0 < cl.current then
         [("current_ratio", ⟨ca.current / cl.current * 100, "유동비율", "%"⟩)]
       else []
   | _, _ => [])

/-- FinancialRatioCalculator._calculate_growth_ratios
(src/financial_ratios.py lines 171-212). -/
def growth_ratios (accounts : Accounts) : RatioFamily :=
  (match List.lookup "revenue" accounts with
   | some rev =>
       if 0 < rev.previous then
         [("revenue_growth",
           ⟨(rev.current - rev.previous) / rev.previous * 100, "매출액 증가율", "%"⟩)]
       else []
   | none => []) ++
  (match List.lookup "net_income" accounts with
   | some ni =>
       if 0 < ni.previous then
         [("income_growth",
           ⟨(ni.current - ni.previous) / ni.previous * 100, "순이익 증가율", "%"⟩)]
       else []
   | none => []) ++
  (match List.lookup "total_assets" accounts with
   | some ta =>
       if 0 < ta.previous then
         [("asset_growth",
           ⟨(ta.current - ta.previous) / ta.previous * 100, "총자산 증가율", "%"⟩)]
       else []
   | none => [])

/-- FinancialRatioCalculator._calculate_activity_ratios
(src/financial_ratios.py lines 214-233). -/
def activity_ratios (accounts : Accounts) : RatioFamily :=
  match List.lookup "revenue" accounts, List.lookup "total_assets" accounts with
  | some rev, some ta =>
      if 0 < ta.current then
        [("asset_turnover", ⟨rev.current / ta.current, "총자산회전율", "회"⟩)]
      else []
  | _, _ => []

/-- FinancialRatioCalculator.calculate_ratios (src/financial_ratios.py
lines 14-38).  The source takes the financial_data dict and returns the
empty dict when financial_data is falsy or its raw_data entry is missing
or empty; we model the input by its raw_data item list, so that guard is
the emptiness test on the list. -/
def calculate_ratios (raw_data : List RawItem) : RatioReport :=
  if raw_data = [] then []
  else
    let accounts := extract_key_accounts raw_data
    [("profitability", profitability_ratios accounts),
     ("stability", stability_ratios accounts),
     ("growth", growth_ratios accounts),
     ("activity", activity_ratios accounts)]

/-- Observer: the ratio stored in the report of an item list under a
family name and a ratio key (absent families and keys give none). -/
def ratioOf (raw_data : List RawItem) (cat key : String) : Option RatioInfo :=
  (List.lookup cat (calculate_ratios raw_data)).bind (List.lookup key)

/-- FinancialRatioCalculator.calculate_multi_year_ratios
(src/financial_ratios.py lines 235-243): the year dict is modelled as an
association list with (unique) year keys, mapped entrywise. -/
def calculate_multi_year_ratios (multi_year_data : List (Nat × List RawItem)) :
    List (Nat × RatioReport) :=
  multi_year_data.map fun yd => (yd.1, calculate_ratios yd.2)

/-- The trend_data dict built by get_ratio_trends: parallel year and value
lists plus the name/unit pair of the first ratio encountered. -/
structure TrendData where
  years : List String
  values : List ℚ
  ratio_info : Option (String × String)
deriving DecidableEq, Repr

/-- Lookup of one ratio in the multi-year table: the year's report, then
the category dict, then the ratio key, each step possibly absent. -/
def trendLookup (tbl : List (Nat × RatioReport)) (cat key : String) (y : Nat) :
    Option RatioInfo :=
  (List.lookup y tbl).bind fun r => (List.lookup cat r).bind fun f => List.lookup key f

/-- The body of the year loop of get_ratio_trends (src/financial_ratios.py
lines 253-263): when the category and ratio key are present for the year,
append str(year) and the value, and set ratio_info if still unset. -/
def trend_step (tbl : List (Nat × RatioReport)) (cat key : String)
    (td : TrendData) (year : Nat) : TrendData :=
  match trendLookup tbl cat key year with
  | none => td
  | some info =>
      { years := td.years ++ [toString year],
        values := td.values ++ [info.value],
        ratio_info :=
          match td.ratio_info with
          | some i => some i
          | none => some (info.name, info.unit) }

/-- FinancialRatioCalculator.get_ratio_trends (src/financial_ratios.py
lines 245-265): iterate the years in sorted order, starting from the
empty trend_data. -/
def get_ratio_trends (tbl : List (Nat × RatioReport)) (cat key : String) :
    TrendData :=
  (List.insertionSort (· ≤ ·) (tbl.map Prod.fst)).foldl (trend_step tbl cat key)
    ⟨[], [], none⟩

/-- The classified-statement buckets built by
FinancialDataFetcher.parse_financial_data (src/financial_data.py):
each bucket is a dict from account_name to the stored item. -/
structure Classified where
  assets : List (String × RawItem)
  liabilities : List (String × RawItem)
  equity : List (String × RawItem)
  revenue : List (String × RawItem)
  profit : List (String × RawItem)
  expenses : List (String × RawItem)
deriving DecidableEq, Repr

/-- The classification part of the item loop of parse_financial_data
(src/financial_data.py lines 158-174): the if/elif routing of BS items to
assets/liabilities/equity and of IS items to revenue/profit/expenses,
storing the item under its account name (dict overwrite). -/
def classify_step (c : Classified) (item : RawItem) : Classified :=
  if item.sj_div = "BS" then
    if strHasSub item.account_name "자산" then
      { c with assets := dinsert item.account_name item c.assets }
    else if strHasSub item.account_name "부채" || strHasSub item.account_name "차입" then
      { c with liabilities := dinsert item.account_name item c.liabilities }
    else if strHasSub item.account_name "자본" || strHasSub item.account_name "이익잉여금" then
      { c with equity := dinsert item.account_name item c.equity }
    else c
  else if item.sj_div = "IS" then
    if strHasSub item.account_name "매출" then
      { c with revenue := dinsert item.account_name item c.revenue }
    else if strHasSub item.account_name "이익" || strHasSub item.account_name "손익" then
      { c with profit := dinsert item.account_name item c.profit }
    else if strHasSub item.account_name "비용" || strHasSub item.account_name "원가" then
      { c with expenses := dinsert item.account_name item c.expenses }
    else c
  else c

/-- The classified view of parse_financial_data over a whole item list. -/
def parse_classify (items : List RawItem) : Classified :=
  items.foldl classify_step ⟨[], [], [], [], [], []⟩

/-- A Python scalar value as it can appear in a field of a raw item dict:
a number (int or float), a string, or None.  This dynamic model keeps the
Python-level typing of the values read by the ratio pipeline, so that the
exception behaviour of the source can be stated. -/
inductive PyVal where
  | num : ℚ → PyVal
  | str : String → PyVal
  | noneV : PyVal
deriving DecidableEq, Repr

/-- The Python exceptions that the operations used by the ratio pipeline
can raise: these are exactly the types named in the except clauses of
src/financial_ratios.py (ZeroDivisionError, TypeError, KeyError). -/
inductive PyErr where
  | typeError
  | zeroDivisionError
  | keyError
deriving DecidableEq, Repr

/-- A raw item whose field values keep their Python-level typing.  The
account_name and amount fields may hold any scalar; the wrapping
current_year/previous_year dicts are taken to be genuine dicts (with the
get defaults applied), which is the shape the upstream parser produces. -/
structure ItemDyn where
  account_name : PyVal
  sj_div : PyVal
  current : PyVal
  previous : PyVal
deriving DecidableEq, Repr

/-- Python membership test needle in v: substring test on strings,
TypeError on numbers and None. -/
def pyIn (needle : String) : PyVal → Except PyErr Bool
  | PyVal.str s => .ok (strHasSub s needle)
  | _ => .error PyErr.typeError

/-- Python comparison v > 0: decides on numbers, TypeError otherwise. -/
def pyGT0 : PyVal → Except PyErr Bool
  | PyVal.num q => .ok (decide (0 < q))
  | _ => .error PyErr.typeError

/-- Python true division a / b: ZeroDivisionError on a zero divisor,
TypeError unless both operands are numbers. -/
def pyDiv : PyVal → PyVal → Except PyErr ℚ
  | PyVal.num a, PyVal.num b =>
      if b = 0 then .error PyErr.zeroDivisionError else .ok (a / b)
  | _, _ => .error PyErr.typeError

/-- Python subtraction a - b: TypeError unless both operands are numbers. -/
def pySub : PyVal → PyVal → Except PyErr ℚ
  | PyVal.num a, PyVal.num b => .ok (a - b)
  | _, _ => .error PyErr.typeError

/-- The accounts dict of the dynamic model: the stored current/previous
amounts keep their Python values. -/
abbrev DynAccounts := List (String × (PyVal × PyVal))

/-- The loop body of _extract_key_accounts in the dynamic model.  The
membership tests on account_name can raise TypeError (uncaught in the
source, which has no try block around this loop); the equality tests on
sj_div never raise in Python. -/
def extract_step_dyn (accounts : DynAccounts) (item : ItemDyn) :
    Except PyErr DynAccounts :=
  if item.sj_div = PyVal.str "BS" then do
    let b1 ← pyIn "자산총계" item.account_name
    if b1 then pure (dinsert "total_assets" (item.current, item.previous) accounts)
    else do
      let b2 ← pyIn "유동자산" item.account_name
      if b2 then pure (dinsert "current_assets" (item.current, item.previous) accounts)
      else do
        let b3 ← pyIn "부채총계" item.account_name
        if b3 then pure (dinsert "total_liabilities" (item.current, item.previous) accounts)
        else do
          let b4 ← pyIn "유동부채" item.account_name
          if b4 then pure (dinsert "current_liabilities" (item.current, item.previous) accounts)
          else do
            let b5 ← pyIn "자본총계" item.account_name
            if b5 then pure (dinsert "total_equity" (item.current, item.previous) accounts)
            else pure accounts
  else if item.sj_div = PyVal.str "IS" then do
    let r1 ← pyIn "매출액" item.account_name
    let b1 ← if r1 then do
        let r1x ← pyIn "매출원가" item.account_name
        pure (!r1x)
      else pure false
    if b1 then pure (dinsert "revenue" (item.current, item.previous) accounts)
    else do
      let b2 ← pyIn "영업이익" item.account_name
      if b2 then pure (dinsert "operating_profit" (item.current, item.previous) accounts)
      else do
        let r3 ← pyIn "당기순이익" item.account_name
        let b3 ← if r3 then do
            let r3x ← pyIn "손실" item.account_name
            pure (!r3x)
          else pure false
        if b3 then pure (dinsert "net_income" (item.current, item.previous) accounts)
        else pure accounts
  else pure accounts

/-- The item loop of _extract_key_accounts in the dynamic model, from a
given accumulated dict. -/
def extract_dyn_from (acc : DynAccounts) : List ItemDyn → Except PyErr DynAccounts
  | [] => .ok acc
  | it :: t => do
      let acc2 ← extract_step_dyn acc it
      extract_dyn_from acc2 t

/-- _extract_key_accounts in the dynamic model. -/
def extract_key_accounts_dyn (raw_data : List ItemDyn) : Except PyErr DynAccounts :=
  extract_dyn_from [] raw_data

/-- The ratio blocks of one family body run under a single try; on the
first exception the except clause does pass and the ratios collected so
far are returned.  Since each block reads only the accounts dict, the
family result is the concatenation of the block results up to the first
failing block.  The except clause of the source catches exactly
ZeroDivisionError, TypeError and KeyError, which are all of PyErr. -/
def catchSegs : List (Except PyErr RatioFamily) → RatioFamily
  | [] => []
  | Except.error _ :: _ => []
  | Except.ok es :: rest => es ++ catchSegs rest

/-- The ROE block of _calculate_profitability_ratios in the dynamic model. -/
def roeSeg (a : DynAccounts) : Except PyErr RatioFamily :=
  match List.lookup "net_income" a, List.lookup "total_equity" a with
  | some ni, some eq => do
      let pos ← pyGT0 eq.1
      if pos then do
        let v ← pyDiv ni.1 eq.1
        pure [("roe", ⟨v * 100, "ROE (자기자본이익률)", "%"⟩)]
      else pure []
  | _, _ => pure []

/-- The ROA block in the dynamic model. -/
def roaSeg (a : DynAccounts) : Except PyErr RatioFamily :=
  match List.lookup "net_income" a, List.lookup "total_assets" a with
  | some ni, some ta => do
      let pos ← pyGT0 ta.1
      if pos then do
        let v ← pyDiv ni.1 ta.1
        pure [("roa", ⟨v * 100, "ROA (총자산이익률)", "%"⟩)]
      else pure []
  | _, _ => pure []

/-- The operating-margin block in the dynamic model. -/
def omSeg (a : DynAccounts) : Except PyErr RatioFamily :=
  match List.lookup "operating_profit" a, List.lookup "revenue" a with
  | some op, some rev => do
      let pos ← pyGT0 rev.1
      if pos then do
        let v ← pyDiv op.1 rev.1
        pure [("operating_margin", ⟨v * 100, "영업이익률", "%"⟩)]
      else pure []
  | _, _ => pure []

/-- The net-margin block in the dynamic model. -/
def nmSeg (a : DynAccounts) : Except PyErr RatioFamily :=
  match List.lookup "net_income" a, List.lookup "revenue" a with
  | some ni, some rev => do
      let pos ← pyGT0 rev.1
      if pos then do
        let v ← pyDiv ni.1 rev.1
        pure [("net_margin", ⟨v * 100, "순이익률", "%"⟩)]
      else pure []
  | _, _ => pure []

/-- The debt-ratio block in the dynamic model. -/
def debtSeg (a : DynAccounts) : Except PyErr RatioFamily :=
  match List.lookup "total_liabilities" a, List.lookup "total_equity" a with
  | some tl, some eq => do
      let pos ← pyGT0 eq.1
      if pos then do
        let v ← pyDiv tl.1 eq.1
        pure [("debt_ratio", ⟨v * 100, "부채비율", "%"⟩)]
      else pure []
  | _, _ => pure []

/-- The equity-ratio block in the dynamic model. -/
def equityRatioSeg (a : DynAccounts) : Except PyErr RatioFamily :=
  match List.lookup "total_equity" a, List.lookup "total_assets" a with
  | some eq, some ta => do
      let pos ← pyGT0 ta.1
      if pos then do
        let v ← pyDiv eq.1 ta.1
        pure [("equity_ratio", ⟨v * 100, "자기자본비율", "%"⟩)]
      else pure []
  | _, _ => pure []

/-- The current-ratio block in the dynamic model. -/
def currentRatioSeg (a : DynAccounts) : Except PyErr RatioFamily :=
  match List.lookup "current_assets" a, List.lookup "current_liabilities" a with
  | some ca, some cl => do
      let pos ← pyGT0 cl.1
      if pos then do
        let v ← pyDiv ca.1 cl.1
        pure [("current_ratio", ⟨v * 100, "유동비율", "%"⟩)]
      else pure []
  | _, _ => pure []

/-- The revenue-growth block in the dynamic model. -/
def revGrowthSeg (a : DynAccounts) : Except PyErr RatioFamily :=
  match List.lookup "revenue" a with
  | some rev => do
      let pos ← pyGT0 rev.2
      if pos then do
        let d ← pySub rev.1 rev.2
        let v ← pyDiv (PyVal.num d) rev.2
        pure [("revenue_growth", ⟨v * 100, "매출액 증가율", "%"⟩)]
      else pure []
  | none => pure []

/-- The income-growth block in the dynamic model. -/
def incGrowthSeg (a : DynAccounts) : Except PyErr RatioFamily :=
  match List.lookup "net_income" a with
  | some ni => do
      let pos ← pyGT0 ni.2
      if pos then do
        let d ← pySub ni.1 ni.2
        let v ← pyDiv (PyVal.num d) ni.2
        pure [("income_growth", ⟨v * 100, "순이익 증가율", "%"⟩)]
      else pure []
  | none => pure []

/-- The asset-growth block in the dynamic model. -/
def assetGrowthSeg (a : DynAccounts) : Except PyErr RatioFamily :=
  match List.lookup "total_assets" a with
  | some ta => do
      let pos ← pyGT0 ta.2
      if pos then do
        let d ← pySub ta.1 ta.2
        let v ← pyDiv (PyVal.num d) ta.2
        pure [("asset_growth", ⟨v * 100, "총자산 증가율", "%"⟩)]
      else pure []
  | none => pure []

/-- The asset-turnover block in the dynamic model. -/
def turnoverSeg (a : DynAccounts) : Except PyErr RatioFamily :=
  match List.lookup "revenue" a, List.lookup "total_assets" a with
  | some rev, some ta => do
      let pos ← pyGT0 ta.1
      if pos then do
        let v ← pyDiv rev.1 ta.1
        pure [("asset_turnover", ⟨v, "총자산회전율", "회"⟩)]
      else pure []
  | _, _ => pure []

/-- _calculate_profitability_ratios in the dynamic model. -/
def profitability_dyn (a : DynAccounts) : RatioFamily :=
  catchSegs [roeSeg a, roaSeg a, omSeg a, nmSeg a]

/-- _calculate_stability_ratios in the dynamic model. -/
def stability_dyn (a : DynAccounts) : RatioFamily :=
  catchSegs [debtSeg a, equityRatioSeg a, currentRatioSeg a]

/-- _calculate_growth_ratios in the dynamic model. -/
def growth_dyn (a : DynAccounts) : RatioFamily :=
  catchSegs [revGrowthSeg a, incGrowthSeg a, assetGrowthSeg a]

/-- _calculate_activity_ratios in the dynamic model. -/
def activity_dyn (a : DynAccounts) : RatioFamily :=
  catchSegs [turnoverSeg a]

/-- calculate_ratios in the dynamic model: the only part that can raise
an uncaught exception is the account-extraction loop. -/
def calculate_ratios_dyn (raw_data : List ItemDyn) : Except PyErr RatioReport :=
  if raw_data = [] then .ok []
  else do
    let a ← extract_key_accounts_dyn raw_data
    pure [("profitability", profitability_dyn a),
          ("stability", stability_dyn a),
          ("growth", growth_dyn a),
          ("activity", activity_dyn a)]

/-- The five-line-item input of end-to-end scenario A (also the sample
input of the test function test_ratios, scaled as in the spec). -/
def sceneA : List RawItem :=
  [⟨"자산총계", "BS", 1000000, 900000⟩,
   ⟨"부채총계", "BS", 400000, 380000⟩,
   ⟨"자본총계", "BS", 600000, 520000⟩,
   ⟨"매출액", "IS", 800000, 750000⟩,
   ⟨"당기순이익", "IS", 80000, 70000⟩]

/-!  Helper lemmas about the dict operations and the extractor. -/

theorem lookup_dinsert_self (k : String) (v : α) (l : List (String × α)) :
    List.lookup k (dinsert k v l) = some v := by
  induction l with
  | nil => simp [dinsert, List.lookup]
  | cons h t ih =>
      obtain ⟨k', v'⟩ := h
      by_cases hk : k' = k
      · simp [dinsert, hk, List.lookup]
      · have hb : (k == k') = false := beq_eq_false_iff_ne.mpr fun e => hk e.symm
        simp [dinsert, hk, List.lookup, hb, ih]

theorem lookup_dinsert_ne (k k' : String) (v : α) (l : List (String × α))
    (h : k ≠ k') : List.lookup k (dinsert k' v l) = List.lookup k l := by
  have hb : (k == k') = false := beq_eq_false_iff_ne.mpr h
  induction l with
  | nil => simp [dinsert, List.lookup, hb]
  | cons hd t ih =>
      obtain ⟨k'', v''⟩ := hd
      by_cases hk : k'' = k'
      · subst hk
        simp [dinsert, List.lookup, hb]
      · simp [dinsert, hk, List.lookup, ih]

theorem lookup_cons (k k' : String) (v : α) (t : List (String × α)) :
    List.lookup k ((k', v) :: t) = if k = k' then some v else List.lookup k t := by
  by_cases h : k = k'
  · simp [List.lookup, h]
  · simp [List.lookup, h, beq_eq_false_iff_ne.mpr h]

theorem lookup_append (k : String) (l1 l2 : List (String × α)) :
    List.lookup k (l1 ++ l2) =
      match List.lookup k l1 with
      | some v => some v
      | none => List.lookup k l2 := by
  induction l1 with
  | nil => simp [List.lookup]
  | cons h t ih =>
      obtain ⟨k', v'⟩ := h
      by_cases hk : k = k'
      · simp [List.cons_append, lookup_cons, hk]
      · simp [List.cons_append, lookup_cons, hk, ih]

theorem extract_step_eq_routeKey (acc : Accounts) (it : RawItem) :
    extract_step acc it =
      match routeKey it with
      | some k => dinsert k ⟨it.current, it.previous⟩ acc
      | none => acc := by
  unfold extract_step routeKey
  split_ifs <;> rfl

theorem lookup_extract_step (key : String) (acc : Accounts) (it : RawItem) :
    List.lookup key (extract_step acc it) =
      if routeKey it = some key then some ⟨it.current, it.previous⟩
      else List.lookup key acc := by
  rw [extract_step_eq_routeKey]
  cases h : routeKey it with
  | none => simp
  | some k =>
      by_cases hk : k = key
      · subst hk
        simp [lookup_dinsert_self]
      · simp [hk, lookup_dinsert_ne key k _ acc fun e => hk e.symm]

theorem lookup_foldl_extract (key : String) :
    ∀ (raw : List RawItem) (acc : Accounts),
      List.lookup key (raw.foldl extract_step acc) =
        match lastMatch key raw with
        | some it => some ⟨it.current, it.previous⟩
        | none => List.lookup key acc := by
  intro raw
  induction raw with
  | nil => intro acc; simp [lastMatch]
  | cons it t ih =>
      intro acc
      show List.lookup key (t.foldl extract_step (extract_step acc it)) = _
      rw [ih]
      cases h : lastMatch key t with
      | some r => simp [lastMatch, h]
      | none =>
          rw [lookup_extract_step]
          by_cases hr : routeKey it = some key
          · simp [lastMatch, h, hr]
          · simp [lastMatch, h, hr]

/-- The stored value for each canonical key is determined by the LAST
matching item of the raw list (dict assignment overwrites). -/
theorem lookup_extract_key_accounts (key : String) (raw : List RawItem) :
    List.lookup key (extract_key_accounts raw) =
      match lastMatch key raw with
      | some it => some ⟨it.current, it.previous⟩
      | none => none := by
  unfold extract_key_accounts
  rw [lookup_foldl_extract]
  cases lastMatch key raw <;> simp

/-!  Characterization of each ratio key of the four families: present with
the source formula exactly when both accounts are present and the
denominator of the guard is positive. -/

theorem lookup_prof_roe (a : Accounts) :
    List.lookup "roe" (profitability_ratios a) =
      match List.lookup "net_income" a, List.lookup "total_equity" a with
      | some ni, some eq =>
          if 0 < eq.current then
            some ⟨ni.current / eq.current * 100, "ROE (자기자본이익률)", "%"⟩
          else none
      | _, _ => none := by
  unfold profitability_ratios
  cases h1 : List.lookup "net_income" a <;>
  cases h2 : List.lookup "total_equity" a <;>
  cases h3 : List.lookup "total_assets" a <;>
  cases h4 : List.lookup "operating_profit" a <;>
  cases h5 : List.lookup "revenue" a <;>
  simp [lookup_append, lookup_cons] <;> split_ifs <;> simp [lookup_cons]

theorem lookup_prof_roa (a : Accounts) :
    List.lookup "roa" (profitability_ratios a) =
      match List.lookup "net_income" a, List.lookup "total_assets" a with
      | some ni, some ta =>
          if 0 < ta.current then
            some ⟨ni.current / ta.current * 100, "ROA (총자산이익률)", "%"⟩
          else none
      | _, _ => none := by
  unfold profitability_ratios
  cases h1 : List.lookup "net_income" a <;>
  cases h2 : List.lookup "total_equity" a <;>
  cases h3 : List.lookup "total_assets" a <;>
  cases h4 : List.lookup "operating_profit" a <;>
  cases h5 : List.lookup "revenue" a <;>
  simp [lookup_append, lookup_cons] <;> split_ifs <;> simp [lookup_cons]

theorem lookup_prof_operating_margin (a : Accounts) :
    List.lookup "operating_margin" (profitability_ratios a) =
      match List.lookup "operating_profit" a, List.lookup "revenue" a with
      | some op, some rev =>
          if 0 < rev.current then
            some ⟨op.current / rev.current * 100, "영업이익률", "%"⟩
          else none
      | _, _ => none := by
  unfold profitability_ratios
  cases h1 : List.lookup "net_income" a <;>
  cases h2 : List.lookup "total_equity" a <;>
  cases h3 : List.lookup "total_assets" a <;>
  cases h4 : List.lookup "operating_profit" a <;>
  cases h5 : List.lookup "revenue" a <;>
  simp [lookup_append, lookup_cons] <;> split_ifs <;> simp [lookup_cons]

theorem lookup_prof_net_margin (a : Accounts) :
    List.lookup "net_margin" (profitability_ratios a) =
      match List.lookup "net_income" a, List.lookup "revenue" a with
      | some ni, some rev =>
          if 0 < rev.current then
            some ⟨ni.current / rev.current * 100, "순이익률", "%"⟩
          else none
      | _, _ => none := by
  unfold profitability_ratios
  cases h1 : List.lookup "net_income" a <;>
  cases h2 : List.lookup "total_equity" a <;>
  cases h3 : List.lookup "total_assets" a <;>
  cases h4 : List.lookup "operating_profit" a <;>
  cases h5 : List.lookup "revenue" a <;>
  simp [lookup_append, lookup_cons] <;> split_ifs <;> simp [lookup_cons]

theorem lookup_stab_debt_ratio (a : Accounts) :
    List.lookup "debt_ratio" (stability_ratios a) =
      match List.lookup "total_liabilities" a, List.lookup "total_equity" a with
      | some tl, some eq =>
          if 0 < eq.current then
            some ⟨tl.current / eq.current * 100, "부채비율", "%"⟩
          else none
      | _, _ => none := by
  unfold stability_ratios
  cases h1 : List.lookup "total_liabilities" a <;>
  cases h2 : List.lookup "total_equity" a <;>
  cases h3 : List.lookup "total_assets" a <;>
  cases h4 : List.lookup "current_assets" a <;>
  cases h5 : List.lookup "current_liabilities" a <;>
  simp [lookup_append, lookup_cons] <;> split_ifs <;> simp [lookup_cons]

theorem lookup_stab_equity_ratio (a : Accounts) :
    List.lookup "equity_ratio" (stability_ratios a) =
      match List.lookup "total_equity" a, List.lookup "total_assets" a with
      | some eq, some ta =>
          if 0 < ta.current then
            some ⟨eq.current / ta.current * 100, "자기자본비율", "%"⟩
          else none
      | _, _ => none := by
  unfold stability_ratios
  cases h1 : List.lookup "total_liabilities" a <;>
  cases h2 : List.lookup "total_equity" a <;>
  cases h3 : List.lookup "total_assets" a <;>
  cases h4 : List.lookup "current_assets" a <;>
  cases h5 : List.lookup "current_liabilities" a <;>
  simp [lookup_append, lookup_cons] <;> split_ifs <;> simp [lookup_cons]

theorem lookup_stab_current_ratio (a : Accounts) :
    List.lookup "current_ratio" (stability_ratios a) =
      match List.lookup "current_assets" a, List.lookup "current_liabilities" a with
      | some ca, some cl =>
          if 0 < cl.current then
            some ⟨ca.current / cl.current * 100, "유동비율", "%"⟩
          else none
      | _, _ => none := by
  unfold stability_ratios
  cases h1 : List.lookup "total_liabilities" a <;>
  cases h2 : List.lookup "total_equity" a <;>
  cases h3 : List.lookup "total_assets" a <;>
  cases h4 : List.lookup "current_assets" a <;>
  cases h5 : List.lookup "current_liabilities" a <;>
  simp [lookup_append, lookup_cons] <;> split_ifs <;> simp [lookup_cons]

theorem lookup_growth_revenue (a : Accounts) :
    List.lookup "revenue_growth" (growth_ratios a) =
      match List.lookup "revenue" a with
      | some rev =>
          if 0 < rev.previous then
            some ⟨(rev.current - rev.previous) / rev.previous * 100, "매출액 증가율", "%"⟩
          else none
      | none => none := by
  unfold growth_ratios
  cases h1 : List.lookup "revenue" a <;>
  cases h2 : List.lookup "net_income" a <;>
  cases h3 : List.lookup "total_assets" a <;>
  simp [lookup_append, lookup_cons] <;> split_ifs <;> simp [lookup_cons]

theorem lookup_growth_income (a : Accounts) :
    List.lookup "income_growth" (growth_ratios a) =
      match List.lookup "net_income" a with
      | some ni =>
          if 0 < ni.previous then
            some ⟨(ni.current - ni.previous) / ni.previous * 100, "순이익 증가율", "%"⟩
          else none
      | none => none := by
  unfold growth_ratios
  cases h1 : List.lookup "revenue" a <;>
  cases h2 : List.lookup "net_income" a <;>
  cases h3 : List.lookup "total_assets" a <;>
  simp [lookup_append, lookup_cons] <;> split_ifs <;> simp [lookup_cons]

theorem lookup_growth_asset (a : Accounts) :
    List.lookup "asset_growth" (growth_ratios a) =
      match List.lookup "total_assets" a with
      | some ta =>
          if 0 < ta.previous then
            some ⟨(ta.current - ta.previous) / ta.previous * 100, "총자산 증가율", "%"⟩
          else none
      | none => none := by
  unfold growth_ratios
  cases h1 : List.lookup "revenue" a <;>
  cases h2 : List.lookup "net_income" a <;>
  cases h3 : List.lookup "total_assets" a <;>
  simp [lookup_append, lookup_cons] <;> split_ifs <;> simp [lookup_cons]

theorem lookup_act_asset_turnover (a : Accounts) :
    List.lookup "asset_turnover" (activity_ratios a) =
      match List.lookup "revenue" a, List.lookup "total_assets" a with
      | some rev, some ta =>
          if 0 < ta.current then
            some ⟨rev.current / ta.current, "총자산회전율", "회"⟩
          else none
      | _, _ => none := by
  unfold activity_ratios
  cases h1 : List.lookup "revenue" a <;>
  cases h2 : List.lookup "total_assets" a <;>
  simp [lookup_cons] <;> split_ifs <;> simp [lookup_cons]

/-!  Helper lemmas for get_ratio_trends. -/

/-- The (year, ratio) pairs that the trend loop collects from a given
year sequence: exactly the years whose report has the category and key. -/
def trendHits (tbl : List (Nat × RatioReport)) (cat key : String)
    (ys : List Nat) : List (Nat × RatioInfo) :=
  ys.filterMap fun y => (trendLookup tbl cat key y).map fun i => (y, i)

theorem trends_foldl (tbl : List (Nat × RatioReport)) (cat key : String) :
    ∀ (ys : List Nat) (td : TrendData),
      ys.foldl (trend_step tbl cat key) td =
        { years := td.years ++ (trendHits tbl cat key ys).map fun h => toString h.1,
          values := td.values ++ (trendHits tbl cat key ys).map fun h => h.2.value,
          ratio_info :=
            match td.ratio_info with
            | some i => some i
            | none => (trendHits tbl cat key ys).head?.map fun h => (h.2.name, h.2.unit) } := by
  intro ys
  induction ys with
  | nil =>
      intro td
      obtain ⟨yrs, vals, ri⟩ := td
      cases ri <;> simp [trendHits]
  | cons y t ih =>
      intro td
      show t.foldl (trend_step tbl cat key) (trend_step tbl cat key td y) = _
      rw [ih]
      cases h : trendLookup tbl cat key y with
      | none => simp [trend_step, h, trendHits, List.filterMap_cons]
      | some i =>
          cases hri : td.ratio_info <;>
            simp [trend_step, h, hri, trendHits, List.filterMap_cons, List.append_assoc]

/-- The years of the collected (year, ratio) pairs are the years passing
the presence test. -/
theorem trendHits_map_fst (tbl : List (Nat × RatioReport)) (cat key : String) :
    ∀ ys : List Nat,
      (trendHits tbl cat key ys).map Prod.fst =
        ys.filter fun y => (trendLookup tbl cat key y).isSome := by
  intro ys
  induction ys with
  | nil => simp [trendHits]
  | cons y t ih =>
      cases h : trendLookup tbl cat key y <;>
        simp [trendHits, List.filterMap_cons, h, List.filter_cons] at ih ⊢ <;>
        exact ih

/-!  Helper lemmas for the statement classifier. -/

/-- The six buckets of the classified view. -/
inductive Bucket where
  | assets | liabilities | equity | revenue | profit | expenses
deriving DecidableEq, Repr

/-- The bucket (if any) one item is routed to, read off the if/elif chains
of parse_financial_data: a BS item goes to the first of
assets/liabilities/equity whose rule matches, an IS item to the first of
revenue/profit/expenses, any other statement type to none. -/
def classRoute (item : RawItem) : Option Bucket :=
  if item.sj_div = "BS" then
    if strHasSub item.account_name "자산" then some Bucket.assets
    else if strHasSub item.account_name "부채" || strHasSub item.account_name "차입" then
      some Bucket.liabilities
    else if strHasSub item.account_name "자본" || strHasSub item.account_name "이익잉여금" then
      some Bucket.equity
    else none
  else if item.sj_div = "IS" then
    if strHasSub item.account_name "매출" then some Bucket.revenue
    else if strHasSub item.account_name "이익" || strHasSub item.account_name "손익" then
      some Bucket.profit
    else if strHasSub item.account_name "비용" || strHasSub item.account_name "원가" then
      some Bucket.expenses
    else none
  else none

theorem classify_step_eq_classRoute (c : Classified) (it : RawItem) :
    classify_step c it =
      match classRoute it with
      | some Bucket.assets => { c with assets := dinsert it.account_name it c.assets }
      | some Bucket.liabilities =>
          { c with liabilities := dinsert it.account_name it c.liabilities }
      | some Bucket.equity => { c with equity := dinsert it.account_name it c.equity }
      | some Bucket.revenue => { c with revenue := dinsert it.account_name it c.revenue }
      | some Bucket.profit => { c with profit := dinsert it.account_name it c.profit }
      | some Bucket.expenses => { c with expenses := dinsert it.account_name it c.expenses }
      | none => c := by
  unfold classify_step classRoute
  split_ifs <;> rfl

theorem calculate_ratios_families (raw : List RawItem) (h : raw ≠ []) :
    List.lookup "profitability" (calculate_ratios raw) =
        some (profitability_ratios (extract_key_accounts raw)) ∧
      List.lookup "stability" (calculate_ratios raw) =
        some (stability_ratios (extract_key_accounts raw)) ∧
      List.lookup "growth" (calculate_ratios raw) =
        some (growth_ratios (extract_key_accounts raw)) ∧
      List.lookup "activity" (calculate_ratios raw) =
        some (activity_ratios (extract_key_accounts raw)) := by
  simp [calculate_ratios, h, lookup_cons]

/-!  Helper lemmas for the dynamic model. -/

theorem extract_step_dyn_ok (acc : DynAccounts) (it : ItemDyn) (s : String)
    (h : it.account_name = PyVal.str s) :
    ∃ acc2, extract_step_dyn acc it = .ok acc2 := by
  unfold extract_step_dyn
  rw [h]
  split_ifs <;>
    simp [pyIn, bind, Except.bind, pure, Except.pure] <;>
    split_ifs <;>
    simp

theorem extract_dyn_from_ok :
    ∀ (raw : List ItemDyn) (acc : DynAccounts),
      (∀ it ∈ raw, ∃ s, it.account_name = PyVal.str s) →
      ∃ acc2, extract_dyn_from acc raw = .ok acc2 := by
  intro raw
  induction raw with
  | nil => exact fun acc _ => ⟨acc, rfl⟩
  | cons it t ih =>
      intro acc h
      obtain ⟨s, hs⟩ := h it (List.mem_cons_self it t)
      obtain ⟨acc2, hstep⟩ := extract_step_dyn_ok acc it s hs
      obtain ⟨acc3, hrest⟩ := ih acc2 fun x hx => h x (List.mem_cons_of_mem it hx)
      refine ⟨acc3, ?_⟩
      simp [extract_dyn_from, hstep, bind, Except.bind, hrest]

/-- C1 counterexample: with two balance-sheet items both matching the
total_assets rule, the stored amounts are the SECOND item's (1,2 followed
by 3,4 stores 3,4), so first-match-wins is false as stated. -/
theorem C1_counterexample :
    List.lookup "total_assets"
        (extract_key_accounts [⟨"자산총계", "BS", 1, 2⟩, ⟨"자산총계", "BS", 3, 4⟩]) =
      some ⟨3, 4⟩ ∧
    (⟨3, 4⟩ : AmountPair) ≠ ⟨1, 2⟩ := by
  refine ⟨rfl, ?_⟩
  intro h
  simp [AmountPair.mk.injEq] at h

/-- C1 amended: LAST-match-wins per key.  For every input item list and
every canonical key, the stored current/previous amounts are exactly those
of the last item routed to that key (each matching item overwrites the
dict entry), and the key is absent exactly when no item routes to it. -/
theorem C1_last_match_wins (raw : List RawItem) (key : String) :
    List.lookup key (extract_key_accounts raw) =
      match lastMatch key raw with
      | some it => some ⟨it.current, it.previous⟩
      | none => none :=
  lookup_extract_key_accounts key raw

/-- C2 counterexample: the balance-sheet name 유동자산총계 satisfies both
the current_assets rule (contains 유동자산) and the total_assets rule
(contains 자산총계), yet extraction populates only total_assets and leaves
current_assets absent — the rules are not evaluated independently. -/
theorem C2_counterexample :
    strHasSub "유동자산총계" "유동자산" = true ∧
    strHasSub "유동자산총계" "자산총계" = true ∧
    List.lookup "total_assets" (extract_key_accounts [⟨"유동자산총계", "BS", 5, 6⟩]) =
      some ⟨5, 6⟩ ∧
    List.lookup "current_assets" (extract_key_accounts [⟨"유동자산총계", "BS", 5, 6⟩]) =
      none :=
  ⟨rfl, rfl, rfl, rfl⟩

/-- C2 amended: the canonical-key rules are an elif chain, not
independent tests.  One processed item changes at most one key, namely
routeKey of the item: the first branch in source order whose rule it
satisfies (priority total_assets, current_assets, total_liabilities,
current_liabilities, total_equity for BS; revenue, operating_profit,
net_income for IS); every other key keeps its previous binding. -/
theorem C2_first_rule_only (acc : Accounts) (it : RawItem) (key : String) :
    List.lookup key (extract_step acc it) =
      if routeKey it = some key then some ⟨it.current, it.previous⟩
      else List.lookup key acc :=
  lookup_extract_step key acc it

/-- C3 counterexample: for the empty item list calculate_ratios returns
the empty dict, so none of the four family keys is present; and in the
multi-year table a year with an empty list maps to that same empty dict
(the year entry itself is kept). -/
theorem C3_counterexample :
    calculate_ratios [] = [] ∧
    List.lookup "profitability" (calculate_ratios []) = none ∧
    List.lookup "stability" (calculate_ratios []) = none ∧
    List.lookup "growth" (calculate_ratios []) = none ∧
    List.lookup "activity" (calculate_ratios []) = none ∧
    List.lookup 2023 (calculate_multi_year_ratios [(2022, sceneA), (2023, [])]) =
      some [] :=
  ⟨rfl, rfl, rfl, rfl, rfl, rfl⟩

/-- C3 amended: an empty item list yields the empty report (no family
keys at all, from the falsy-input guard); a NONEMPTY list from which no
canonical account can be extracted yields a report with all four family
keys present and each family empty; and the multi-year table keeps an
entry for every year of its input. -/
theorem C3_empty_report_shape (raw : List RawItem) (byYear : List (Nat × List RawItem)) :
    (raw = [] → calculate_ratios raw = []) ∧
    (raw ≠ [] → extract_key_accounts raw = [] →
      calculate_ratios raw =
        [("profitability", []), ("stability", []), ("growth", []), ("activity", [])]) ∧
    (calculate_multi_year_ratios byYear).map Prod.fst = byYear.map Prod.fst := by
  refine ⟨?_, ?_, ?_⟩
  · intro h
    simp [calculate_ratios, h]
  · intro h he
    simp only [calculate_ratios, if_neg h, he]
    rfl
  · simp [calculate_multi_year_ratios]

/-- C3 amended witness: the three parts instantiated on the empty list,
on a one-item list whose item matches no rule, and on a two-year table. -/
theorem C3_empty_report_shape_witness :
    calculate_ratios ([] : List RawItem) = [] ∧
    calculate_ratios [⟨"기타", "XX", 1, 1⟩] =
      [("profitability", []), ("stability", []), ("growth", []), ("activity", [])] ∧
    (calculate_multi_year_ratios [(2022, sceneA), (2023, [])]).map Prod.fst =
      [2022, 2023] := by
  refine ⟨(C3_empty_report_shape [] []).1 rfl, ?_, ?_⟩
  · exact (C3_empty_report_shape [⟨"기타", "XX", 1, 1⟩] []).2.1 (by simp) rfl
  · have h := (C3_empty_report_shape [] [(2022, sceneA), (2023, [])]).2.2
    simpa using h

theorem routeKey_ne_revenue (it : RawItem)
    (h : strHasSub it.account_name "매출원가" = true) :
    routeKey it ≠ some "revenue" := by
  intro hr
  unfold routeKey at hr
  split_ifs at hr <;> simp_all

theorem routeKey_ne_net_income (it : RawItem)
    (h : strHasSub it.account_name "손실" = true) :
    routeKey it ≠ some "net_income" := by
  intro hr
  unfold routeKey at hr
  split_ifs at hr <;> simp_all

theorem lastMatch_middle (key : String) (l2 : List RawItem) (it : RawItem)
    (h : routeKey it ≠ some key) :
    ∀ l1 : List RawItem,
      lastMatch key (l1 ++ it :: l2) = lastMatch key (l1 ++ l2) := by
  intro l1
  induction l1 with
  | nil =>
      cases hm : lastMatch key l2 <;> simp [lastMatch, hm, h]
  | cons x t ih =>
      simp [lastMatch, ih]

/-- C7 confirmed: an income-statement item whose name contains 매출원가
never populates revenue (inserted anywhere in any list, the stored revenue
is unchanged), and one whose name contains 손실 never populates
net_income. -/
theorem C7_exclusion (l1 l2 : List RawItem) (it : RawItem)
    (_h_is : it.sj_div = "IS") :
    (strHasSub it.account_name "매출원가" = true →
      List.lookup "revenue" (extract_key_accounts (l1 ++ it :: l2)) =
        List.lookup "revenue" (extract_key_accounts (l1 ++ l2))) ∧
    (strHasSub it.account_name "손실" = true →
      List.lookup "net_income" (extract_key_accounts (l1 ++ it :: l2)) =
        List.lookup "net_income" (extract_key_accounts (l1 ++ l2))) := by
  constructor
  · intro h
    rw [lookup_extract_key_accounts, lookup_extract_key_accounts,
        lastMatch_middle "revenue" l2 it (routeKey_ne_revenue it h) l1]
  · intro h
    rw [lookup_extract_key_accounts, lookup_extract_key_accounts,
        lastMatch_middle "net_income" l2 it (routeKey_ne_net_income it h) l1]

/-- C7 witness: a 매출원가 item appended after a revenue line leaves
revenue as it was, and a lone 당기순손실 item populates nothing. -/
theorem C7_exclusion_witness :
    List.lookup "revenue"
        (extract_key_accounts [⟨"매출액", "IS", 800, 750⟩, ⟨"매출원가", "IS", 9, 9⟩]) =
      List.lookup "revenue" (extract_key_accounts [⟨"매출액", "IS", 800, 750⟩]) ∧
    List.lookup "net_income" (extract_key_accounts [⟨"당기순손실", "IS", 5, 5⟩]) =
      List.lookup "net_income" (extract_key_accounts ([] : List RawItem)) :=
  ⟨(C7_exclusion [⟨"매출액", "IS", 800, 750⟩] [] ⟨"매출원가", "IS", 9, 9⟩ rfl).1 rfl,
   (C7_exclusion [] [] ⟨"당기순손실", "IS", 5, 5⟩ rfl).2 rfl⟩

/-- C9 confirmed: parse_financial_data routes each item to at most one
bucket, the first applicable rule in the fixed priority order captured by
classRoute (assets, liabilities, equity for BS; revenue, profit, expenses
for IS; other statement types match no rule, so every bucket is left
unchanged — the item is dropped from the classified view); within a
bucket the stored entry for a name is overwritten by a later item with
the identical name (dict assignment). -/
theorem C9_classifier (c : Classified) (it : RawItem) (nm : String) (v : RawItem)
    (d : List (String × RawItem)) :
    ((classify_step c it).assets =
        if classRoute it = some Bucket.assets then dinsert it.account_name it c.assets
        else c.assets) ∧
    ((classify_step c it).liabilities =
        if classRoute it = some Bucket.liabilities then
          dinsert it.account_name it c.liabilities
        else c.liabilities) ∧
    ((classify_step c it).equity =
        if classRoute it = some Bucket.equity then dinsert it.account_name it c.equity
        else c.equity) ∧
    ((classify_step c it).revenue =
        if classRoute it = some Bucket.revenue then dinsert it.account_name it c.revenue
        else c.revenue) ∧
    ((classify_step c it).profit =
        if classRoute it = some Bucket.profit then dinsert it.account_name it c.profit
        else c.profit) ∧
    ((classify_step c it).expenses =
        if classRoute it = some Bucket.expenses then dinsert it.account_name it c.expenses
        else c.expenses) ∧
    List.lookup nm (dinsert nm v d) = some v := by
  have he := classify_step_eq_classRoute c it
  refine ⟨?_, ?_, ?_, ?_, ?_, ?_, lookup_dinsert_self nm v d⟩ <;>
    (rw [he]
     cases h : classRoute it with
     | none => simp
     | some b => cases b <;> simp [h])

/-- C4 confirmed: ratio omission law.  For every CanonicalAccounts
value, each of the eleven ratios is absent from its family whenever its
denominator account is absent or has a non-positive denominator amount
(current amount, or previous amount for the growth ratios), and likewise
whenever its numerator account is absent; nothing is emitted in place of
the omitted key. -/
theorem C4_omission_law (a : Accounts) :
    ((∀ p, List.lookup "total_equity" a = some p → p.current ≤ 0) →
      List.lookup "roe" (profitability_ratios a) = none) ∧
    (List.lookup "net_income" a = none →
      List.lookup "roe" (profitability_ratios a) = none) ∧
    ((∀ p, List.lookup "total_assets" a = some p → p.current ≤ 0) →
      List.lookup "roa" (profitability_ratios a) = none) ∧
    (List.lookup "net_income" a = none →
      List.lookup "roa" (profitability_ratios a) = none) ∧
    ((∀ p, List.lookup "revenue" a = some p → p.current ≤ 0) →
      List.lookup "operating_margin" (profitability_ratios a) = none) ∧
    (List.lookup "operating_profit" a = none →
      List.lookup "operating_margin" (profitability_ratios a) = none) ∧
    ((∀ p, List.lookup "revenue" a = some p → p.current ≤ 0) →
      List.lookup "net_margin" (profitability_ratios a) = none) ∧
    (List.lookup "net_income" a = none →
      List.lookup "net_margin" (profitability_ratios a) = none) ∧
    ((∀ p, List.lookup "total_equity" a = some p → p.current ≤ 0) →
      List.lookup "debt_ratio" (stability_ratios a) = none) ∧
    (List.lookup "total_liabilities" a = none →
      List.lookup "debt_ratio" (stability_ratios a) = none) ∧
    ((∀ p, List.lookup "total_assets" a = some p → p.current ≤ 0) →
      List.lookup "equity_ratio" (stability_ratios a) = none) ∧
    (List.lookup "total_equity" a = none →
      List.lookup "equity_ratio" (stability_ratios a) = none) ∧
    ((∀ p, List.lookup "current_liabilities" a = some p → p.current ≤ 0) →
      List.lookup "current_ratio" (stability_ratios a) = none) ∧
    (List.lookup "current_assets" a = none →
      List.lookup "current_ratio" (stability_ratios a) = none) ∧
    ((∀ p, List.lookup "revenue" a = some p → p.previous ≤ 0) →
      List.lookup "revenue_growth" (growth_ratios a) = none) ∧
    ((∀ p, List.lookup "net_income" a = some p → p.previous ≤ 0) →
      List.lookup "income_growth" (growth_ratios a) = none) ∧
    ((∀ p, List.lookup "total_assets" a = some p → p.previous ≤ 0) →
      List.lookup "asset_growth" (growth_ratios a) = none) ∧
    ((∀ p, List.lookup "total_assets" a = some p → p.current ≤ 0) →
      List.lookup "asset_turnover" (activity_ratios a) = none) ∧
    (List.lookup "revenue" a = none →
      List.lookup "asset_turnover" (activity_ratios a) = none) := by
  refine ⟨?_, ?_, ?_, ?_, ?_, ?_, ?_, ?_, ?_, ?_, ?_, ?_, ?_, ?_, ?_, ?_, ?_, ?_, ?_⟩
  · intro h
    rw [lookup_prof_roe]
    cases h1 : List.lookup "net_income" a <;> cases h2 : List.lookup "total_equity" a <;>
      simp
    exact h _ h2
  · intro h
    rw [lookup_prof_roe, h]
  · intro h
    rw [lookup_prof_roa]
    cases h1 : List.lookup "net_income" a <;> cases h2 : List.lookup "total_assets" a <;>
      simp
    exact h _ h2
  · intro h
    rw [lookup_prof_roa, h]
  · intro h
    rw [lookup_prof_operating_margin]
    cases h1 : List.lookup "operating_profit" a <;> cases h2 : List.lookup "revenue" a <;>
      simp
    exact h _ h2
  · intro h
    rw [lookup_prof_operating_margin, h]
  · intro h
    rw [lookup_prof_net_margin]
    cases h1 : List.lookup "net_income" a <;> cases h2 : List.lookup "revenue" a <;>
      simp
    exact h _ h2
  · intro h
    rw [lookup_prof_net_margin, h]
  · intro h
    rw [lookup_stab_debt_ratio]
    cases h1 : List.lookup "total_liabilities" a <;>
      cases h2 : List.lookup "total_equity" a <;> simp
    exact h _ h2
  · intro h
    rw [lookup_stab_debt_ratio, h]
  · intro h
    rw [lookup_stab_equity_ratio]
    cases h1 : List.lookup "total_equity" a <;> cases h2 : List.lookup "total_assets" a <;>
      simp
    exact h _ h2
  · intro h
    rw [lookup_stab_equity_ratio, h]
  · intro h
    rw [lookup_stab_current_ratio]
    cases h1 : List.lookup "current_assets" a <;>
      cases h2 : List.lookup "current_liabilities" a <;> simp
    exact h _ h2
  · intro h
    rw [lookup_stab_current_ratio, h]
  · intro h
    rw [lookup_growth_revenue]
    cases h1 : List.lookup "revenue" a <;> simp
    exact h _ h1
  · intro h
    rw [lookup_growth_income]
    cases h1 : List.lookup "net_income" a <;> simp
    exact h _ h1
  · intro h
    rw [lookup_growth_asset]
    cases h1 : List.lookup "total_assets" a <;> simp
    exact h _ h1
  · intro h
    rw [lookup_act_asset_turnover]
    cases h1 : List.lookup "revenue" a <;> cases h2 : List.lookup "total_assets" a <;>
      simp
    exact h _ h2
  · intro h
    rw [lookup_act_asset_turnover, h]

/-- C4 witness: on accounts with a negative total_equity, a revenue
with zero prior and no total_assets, the roe, revenue_growth and
asset_turnover keys are all absent. -/
theorem C4_omission_law_witness :
    List.lookup "roe"
        (profitability_ratios
          [("total_equity", ⟨-5, 3⟩), ("net_income", ⟨10, 2⟩), ("revenue", ⟨7, 0⟩)]) =
      none ∧
    List.lookup "revenue_growth"
        (growth_ratios
          [("total_equity", ⟨-5, 3⟩), ("net_income", ⟨10, 2⟩), ("revenue", ⟨7, 0⟩)]) =
      none ∧
    List.lookup "asset_turnover"
        (activity_ratios
          [("total_equity", ⟨-5, 3⟩), ("net_income", ⟨10, 2⟩), ("revenue", ⟨7, 0⟩)]) =
      none := by
  have H := C4_omission_law
    [("total_equity", ⟨-5, 3⟩), ("net_income", ⟨10, 2⟩), ("revenue", ⟨7, 0⟩)]
  refine ⟨H.1 ?_, H.2.2.2.2.2.2.2.2.2.2.2.2.2.2.1 ?_, H.2.2.2.2.2.2.2.2.2.2.2.2.2.2.2.2.2.1 ?_⟩
  · intro p hp
    simp [lookup_cons] at hp
    rw [← hp]
    norm_num
  · intro p hp
    simp [lookup_cons] at hp
    rw [← hp]
  · intro p hp
    simp [lookup_cons] at hp

theorem sceneA_accounts :
    extract_key_accounts sceneA =
      [("total_assets", ⟨1000000, 900000⟩),
       ("total_liabilities", ⟨400000, 380000⟩),
       ("total_equity", ⟨600000, 520000⟩),
       ("revenue", ⟨800000, 750000⟩),
       ("net_income", ⟨80000, 70000⟩)] := rfl

/-- C5 confirmed: end-to-end scenario A.  On the five-item list the
pipeline yields exactly roe = 40/3 (≈13.33), roa = 8, net_margin = 10,
debt_ratio = 200/3 (≈66.67), equity_ratio = 60, revenue_growth = 20/3
(≈6.67), income_growth = 100/7 (≈14.29), asset_growth = 100/9 (≈11.11),
asset_turnover = 4/5, with operating_margin and current_ratio absent. -/
theorem C5_scenarioA :
    ratioOf sceneA "profitability" "roe" = some ⟨40/3, "ROE (자기자본이익률)", "%"⟩ ∧
    ratioOf sceneA "profitability" "roa" = some ⟨8, "ROA (총자산이익률)", "%"⟩ ∧
    ratioOf sceneA "profitability" "net_margin" = some ⟨10, "순이익률", "%"⟩ ∧
    ratioOf sceneA "profitability" "operating_margin" = none ∧
    ratioOf sceneA "stability" "debt_ratio" = some ⟨200/3, "부채비율", "%"⟩ ∧
    ratioOf sceneA "stability" "equity_ratio" = some ⟨60, "자기자본비율", "%"⟩ ∧
    ratioOf sceneA "stability" "current_ratio" = none ∧
    ratioOf sceneA "growth" "revenue_growth" = some ⟨20/3, "매출액 증가율", "%"⟩ ∧
    ratioOf sceneA "growth" "income_growth" = some ⟨100/7, "순이익 증가율", "%"⟩ ∧
    ratioOf sceneA "growth" "asset_growth" = some ⟨100/9, "총자산 증가율", "%"⟩ ∧
    ratioOf sceneA "activity" "asset_turnover" = some ⟨4/5, "총자산회전율", "회"⟩ := by
  have hne : sceneA ≠ [] := by simp [sceneA]
  have hfam := calculate_ratios_families sceneA hne
  refine ⟨?_, ?_, ?_, ?_, ?_, ?_, ?_, ?_, ?_, ?_, ?_⟩ <;>
    unfold ratioOf
  · rw [hfam.1, Option.some_bind, lookup_prof_roe, sceneA_accounts]
    simp [List.lookup]
    norm_num [RatioInfo.mk.injEq]
  · rw [hfam.1, Option.some_bind, lookup_prof_roa, sceneA_accounts]
    simp [List.lookup]
    norm_num [RatioInfo.mk.injEq]
  · rw [hfam.1, Option.some_bind, lookup_prof_net_margin, sceneA_accounts]
    simp [List.lookup]
    norm_num [RatioInfo.mk.injEq]
  · rw [hfam.1, Option.some_bind, lookup_prof_operating_margin, sceneA_accounts]
    simp [List.lookup]
  · rw [hfam.2.1, Option.some_bind, lookup_stab_debt_ratio, sceneA_accounts]
    simp [List.lookup]
    norm_num [RatioInfo.mk.injEq]
  · rw [hfam.2.1, Option.some_bind, lookup_stab_equity_ratio, sceneA_accounts]
    simp [List.lookup]
    norm_num [RatioInfo.mk.injEq]
  · rw [hfam.2.1, Option.some_bind, lookup_stab_current_ratio, sceneA_accounts]
    simp [List.lookup]
  · rw [hfam.2.2.1, Option.some_bind, lookup_growth_revenue, sceneA_accounts]
    simp [List.lookup]
    norm_num [RatioInfo.mk.injEq]
  · rw [hfam.2.2.1, Option.some_bind, lookup_growth_income, sceneA_accounts]
    simp [List.lookup]
    norm_num [RatioInfo.mk.injEq]
  · rw [hfam.2.2.1, Option.some_bind, lookup_growth_asset, sceneA_accounts]
    simp [List.lookup]
    norm_num [RatioInfo.mk.injEq]
  · rw [hfam.2.2.2, Option.some_bind, lookup_act_asset_turnover, sceneA_accounts]
    simp [List.lookup]
    norm_num [RatioInfo.mk.injEq]

/-- C8 confirmed: growth-rate formula, sign and scale.  For each of the
three growth ratios, when the account is present with positive previous
amount the emitted value is (current - previous) / previous * 100, a
percentage. -/
theorem C8_growth_formula (a : Accounts) :
    (∀ p, List.lookup "revenue" a = some p → 0 < p.previous →
      List.lookup "revenue_growth" (growth_ratios a) =
        some ⟨(p.current - p.previous) / p.previous * 100, "매출액 증가율", "%"⟩) ∧
    (∀ p, List.lookup "net_income" a = some p → 0 < p.previous →
      List.lookup "income_growth" (growth_ratios a) =
        some ⟨(p.current - p.previous) / p.previous * 100, "순이익 증가율", "%"⟩) ∧
    (∀ p, List.lookup "total_assets" a = some p → 0 < p.previous →
      List.lookup "asset_growth" (growth_ratios a) =
        some ⟨(p.current - p.previous) / p.previous * 100, "총자산 증가율", "%"⟩) := by
  refine ⟨?_, ?_, ?_⟩
  · intro p hp hpos
    rw [lookup_growth_revenue, hp]
    simp [hpos]
  · intro p hp hpos
    rw [lookup_growth_income, hp]
    simp [hpos]
  · intro p hp hpos
    rw [lookup_growth_asset, hp]
    simp [hpos]

/-- C8 witness: revenue 1100 against prior 1000 gives value 10 (not
0.10), and 900 against prior 1000 gives value -10. -/
theorem C8_growth_formula_witness :
    List.lookup "revenue_growth" (growth_ratios [("revenue", ⟨1100, 1000⟩)]) =
      some ⟨10, "매출액 증가율", "%"⟩ ∧
    List.lookup "revenue_growth" (growth_ratios [("revenue", ⟨900, 1000⟩)]) =
      some ⟨-10, "매출액 증가율", "%"⟩ := by
  constructor
  · have h := (C8_growth_formula [("revenue", ⟨1100, 1000⟩)]).1 ⟨1100, 1000⟩ rfl
      (by norm_num)
    rw [h]
    norm_num [RatioInfo.mk.injEq]
  · have h := (C8_growth_formula [("revenue", ⟨900, 1000⟩)]).1 ⟨900, 1000⟩ rfl
      (by norm_num)
    rw [h]
    norm_num [RatioInfo.mk.injEq]

/-- C6 counterexample: a malformed record — sj_div "BS" with a numeric
account_name — makes the pipeline raise an uncaught TypeError from the
substring test in _extract_key_accounts (that loop has no try block), so
the engine does not terminate normally on every malformed record. -/
theorem C6_counterexample :
    calculate_ratios_dyn
        [⟨PyVal.num 123, PyVal.str "BS", PyVal.num 0, PyVal.num 0⟩] =
      .error PyErr.typeError := rfl

/-- C6 amended: whenever every item's account_name is a string, the
whole pipeline terminates normally with a report and raises nothing:
amounts of any type (including non-numeric and None), empty lists, one
statement type only, duplicate names and missing fields are all tolerated,
because every exception the ratio blocks can raise is caught by their
except clauses and degrades to omission. -/
theorem C6_no_raise_on_string_names (raw : List ItemDyn)
    (h : ∀ it ∈ raw, ∃ s, it.account_name = PyVal.str s) :
    ∃ rep, calculate_ratios_dyn raw = .ok rep := by
  by_cases hr : raw = []
  · exact ⟨[], by simp [calculate_ratios_dyn, hr]⟩
  · obtain ⟨acc2, hacc⟩ := extract_dyn_from_ok raw [] h
    refine ⟨[("profitability", profitability_dyn acc2), ("stability", stability_dyn acc2),
      ("growth", growth_dyn acc2), ("activity", activity_dyn acc2)], ?_⟩
    simp [calculate_ratios_dyn, hr, extract_key_accounts_dyn, hacc, bind, Except.bind,
      pure, Except.pure]

/-- C6 witness: a list with string names, a string amount and a None
amount is processed without any uncaught exception. -/
theorem C6_no_raise_witness :
    ∃ rep,
      calculate_ratios_dyn
          [⟨PyVal.str "매출액", PyVal.str "IS", PyVal.str "abc", PyVal.noneV⟩,
           ⟨PyVal.str "당기순이익", PyVal.str "IS", PyVal.num 10, PyVal.num 0⟩] =
        .ok rep := by
  refine C6_no_raise_on_string_names _ ?_
  intro it hit
  simp only [List.mem_cons, List.mem_singleton] at hit
  rcases hit with h | h | h
  · exact ⟨"매출액", by rw [h]⟩
  · exact ⟨"당기순이익", by rw [h]⟩
  · exact absurd h (by simp)

/-- C10 confirmed: trend-series invariant.  The years and values lists
collect, in sorted (hence for distinct years strictly ascending) year
order, exactly the years whose report has the category and ratio key
(other years are skipped, not padded), so they have equal length; the
ratio_info is the display name and unit from the earliest such year and
is none when no year has the ratio (head? of an empty hit list). -/
theorem C10_trend_series (tbl : List (Nat × RatioReport)) (cat key : String)
    (hnd : (tbl.map Prod.fst).Nodup) :
    (get_ratio_trends tbl cat key).years =
        (trendHits tbl cat key
            (List.insertionSort (· ≤ ·) (tbl.map Prod.fst))).map
          (fun h => toString h.1) ∧
    (get_ratio_trends tbl cat key).values =
        (trendHits tbl cat key
            (List.insertionSort (· ≤ ·) (tbl.map Prod.fst))).map
          (fun h => h.2.value) ∧
    (get_ratio_trends tbl cat key).years.length =
        (get_ratio_trends tbl cat key).values.length ∧
    ((trendHits tbl cat key
        (List.insertionSort (· ≤ ·) (tbl.map Prod.fst))).map Prod.fst =
      (List.insertionSort (· ≤ ·) (tbl.map Prod.fst)).filter
        (fun y => (trendLookup tbl cat key y).isSome)) ∧
    List.Pairwise (· < ·)
        ((trendHits tbl cat key
            (List.insertionSort (· ≤ ·) (tbl.map Prod.fst))).map Prod.fst) ∧
    (∀ y : Nat,
      y ∈ (trendHits tbl cat key
            (List.insertionSort (· ≤ ·) (tbl.map Prod.fst))).map Prod.fst ↔
        y ∈ tbl.map Prod.fst ∧ (trendLookup tbl cat key y).isSome) ∧
    (get_ratio_trends tbl cat key).ratio_info =
        (trendHits tbl cat key
            (List.insertionSort (· ≤ ·) (tbl.map Prod.fst))).head?.map
          (fun h => (h.2.name, h.2.unit)) := by
  have hfold := trends_foldl tbl cat key
    (List.insertionSort (· ≤ ·) (tbl.map Prod.fst)) ⟨[], [], none⟩
  have hy : (get_ratio_trends tbl cat key).years =
      (trendHits tbl cat key (List.insertionSort (· ≤ ·) (tbl.map Prod.fst))).map
        (fun h => toString h.1) := by
    unfold get_ratio_trends
    rw [hfold]
    simp
  have hv : (get_ratio_trends tbl cat key).values =
      (trendHits tbl cat key (List.insertionSort (· ≤ ·) (tbl.map Prod.fst))).map
        (fun h => h.2.value) := by
    unfold get_ratio_trends
    rw [hfold]
    simp
  have hmf := trendHits_map_fst tbl cat key
    (List.insertionSort (· ≤ ·) (tbl.map Prod.fst))
  have hsorted : List.Sorted (· ≤ ·)
      (List.insertionSort (· ≤ ·) (tbl.map Prod.fst)) :=
    List.sorted_insertionSort (· ≤ ·) (tbl.map Prod.fst)
  have hperm := List.perm_insertionSort (· ≤ ·) (tbl.map Prod.fst)
  have hnd2 : (List.insertionSort (· ≤ ·) (tbl.map Prod.fst)).Nodup :=
    hperm.nodup_iff.mpr hnd
  have hlt : List.Pairwise (· < ·)
      (List.insertionSort (· ≤ ·) (tbl.map Prod.fst)) :=
    hsorted.lt_of_le hnd2
  refine ⟨hy, hv, ?_, hmf, ?_, ?_, ?_⟩
  · rw [hy, hv, List.length_map, List.length_map]
  · rw [hmf]
    exact hlt.sublist (List.filter_sublist _)
  · intro y
    rw [hmf]
    simp [List.mem_filter, hperm.mem_iff]
  · unfold get_ratio_trends
    rw [hfold]

/-- C10 witness: a two-year table in which only 2023 carries the ratio
yields years 2023 only, its value and its display info, strictly
ascending. -/
theorem C10_trend_series_witness :
    (get_ratio_trends
        [(2023, [("growth", [("revenue_growth", ⟨1, "매출액 증가율", "%"⟩)])]), (2022, [])]
        "growth" "revenue_growth").years = ["2023"] ∧
    (get_ratio_trends
        [(2023, [("growth", [("revenue_growth", ⟨1, "매출액 증가율", "%"⟩)])]), (2022, [])]
        "growth" "revenue_growth").values = [1] ∧
    (get_ratio_trends
        [(2023, [("growth", [("revenue_growth", ⟨1, "매출액 증가율", "%"⟩)])]), (2022, [])]
        "growth" "revenue_growth").ratio_info = some ("매출액 증가율", "%") ∧
    List.Pairwise (· < ·)
      ((trendHits
          [(2023, [("growth", [("revenue_growth", ⟨1, "매출액 증가율", "%"⟩)])]), (2022, [])]
          "growth" "revenue_growth"
          (List.insertionSort (· ≤ ·)
            ([(2023, [("growth", [("revenue_growth",
                (⟨1, "매출액 증가율", "%"⟩ : RatioInfo))])]), (2022, [])].map
              Prod.fst))).map Prod.fst) := by
  have H := C10_trend_series
    [(2023, [("growth", [("revenue_growth", ⟨1, "매출액 증가율", "%"⟩)])]), (2022, [])]
    "growth" "revenue_growth" (by decide)
  refine ⟨?_, ?_, ?_, H.2.2.2.2.1⟩
  · rw [H.1]
    rfl
  · rw [H.2.1]
    rfl
  · rw [H.2.2.2.2.2.2]
    rfl
